import Mathlib

/-!
# Verification of the win-ctrl-mcp display-category and focus-preset subsystem

Shallow embedding of `src/win_ctrl_mcp/tools/display.py`,
`src/win_ctrl_mcp/tools/focus.py` and the fullscreen-toggle reporting of
`src/win_ctrl_mcp/tools/window.py`.

Modelling conventions:
* Python floats are modelled as exact rationals (`ℚ`); `round(x, 1)` is
  modelled as exact rounding to the nearest tenth (the rounded quantities here
  are irrational multiples of rationals, so no tie can occur and
  round-half-even agrees with nearest rounding).
* Python dictionaries with optional fields are modelled as structures with
  `Option` fields; Python truthiness of a possibly-missing dict value is made
  explicit at each use site.
* The preset directory (one JSON file per preset name) is modelled as an
  association list from preset name to preset record; a missing or empty
  directory is the empty list.
* The external `aerospace` commands issued by the tools are recorded as an
  explicit action trace; a command that raises `AeroSpaceError` is modelled by
  a failure predicate on the targeted window id.
-/

namespace WinCtrl

/-! ## Display classifier (display.py) -/

/-- A pixel resolution, as parsed from `"<W> x <H>"` strings. -/
structure Resolution where
  width : Nat
  height : Nat
deriving DecidableEq, Repr

/-- The fields of a display descriptor dictionary that
`_calculate_display_category` (display.py:77) reads: `size_inches`
(default 0 when missing), `effective_resolution` and `resolution`.
`none` models a missing/falsy dict entry. -/
structure Display where
  size_inches : ℚ
  effective_resolution : Option Resolution
  resolution : Option Resolution
deriving DecidableEq, Repr

/-- `display.get("effective_resolution") or display.get("resolution", {})`
(display.py:104): a falsy (missing) `effective_resolution` falls back to
`resolution`, and a missing `resolution` to the empty dict, whose
`width`/`height` default to 0. -/
def displayResolution (d : Display) : Resolution :=
  match d.effective_resolution with
  | some r => r
  | none => d.resolution.getD ⟨0, 0⟩

/-- `_calculate_display_category` (display.py:77-133): classify a display
list into a category, with a human-readable description. -/
def calculateDisplayCategory (displays : List Display) : String × String :=
  let num_displays := displays.length
  if num_displays == 0 then
    ("unknown", "No displays detected")
  else if num_displays ≥ 3 then
    ("triple_plus",
      "Three or more monitors: focus=primary, reference=secondary, communication=tertiary")
  else if num_displays == 2 then
    ("dual_display", "Two monitors: focus on primary, reference on secondary")
  else
    let display := displays.headD ⟨0, none, none⟩
    let resolution := displayResolution display
    let total_pixels := resolution.width * resolution.height
    let size_inches := display.size_inches
    if size_inches > 0 then
      if size_inches ≥ 27 then
        ("large_single", "Large single display (27\"+): centered focus with flanking reference")
      else if size_inches ≥ 15 then
        ("medium_single", "Medium single display (15-24\"): 70/30 split with sidebar")
      else
        ("small_single", "Small single display (<15\"): fullscreen focus, workspaces for others")
    else
      if total_pixels ≥ 3686400 then
        ("large_single", "Large single display: centered focus with flanking reference")
      else if total_pixels ≥ 1036800 then
        ("medium_single", "Medium single display: 70/30 split with sidebar")
      else
        ("small_single", "Small single display: fullscreen focus, workspaces for others")

/-! ## Preset store (focus.py) -/

/-- One `windows` entry of a saved preset file: built by `save_focus_preset`
(focus.py:337-344) from `window.get("app-name")`, `window.get("workspace")`
and `window.get("is-focused", False)`. -/
structure PresetWindow where
  app_name : String
  workspace : Option String
  is_focused : Bool
deriving DecidableEq, Repr

/-- A saved preset record (focus.py:328-335). -/
structure Preset where
  name : String
  description : String
  display_category : String
  created_at : String
  windows : List PresetWindow
  monitors : List String
deriving DecidableEq, Repr

/-- A live window as returned by `aerospace list-windows`: the fields the
focus tools read. -/
structure LiveWindow where
  window_id : Nat
  app_name : String
  workspace : Option String
  is_focused : Bool
deriving DecidableEq, Repr

/-- The preset directory, one file per preset name; an absent or empty
directory is the empty list. -/
abbrev PresetStore := List (String × Preset)

/-- `(PRESET_DIR / (name + ".json")).exists()` plus reading the file: look
the name up in the store. -/
def storeLookup (store : PresetStore) (name : String) : Option Preset :=
  (store.find? (fun e => e.1 == name)).map (fun e => e.2)

/-- Writing the preset's file (focus.py:347-350): overwrites any prior file
of the same name. -/
def storePut (store : PresetStore) (name : String) (p : Preset) : PresetStore :=
  (name, p) :: store.filter (fun e => e.1 != name)

/-- `[f.stem for f in PRESET_DIR.glob("*.json")]` (focus.py:383): the names
of all stored presets. -/
def availablePresets (store : PresetStore) : List String :=
  store.map (fun e => e.1)

/-- Python `x or default` on an optional string: `None` and `""` are falsy. -/
def pyOrStr (x : Option String) (default : String) : String :=
  match x with
  | none => default
  | some s => if s == "" then default else s

/-- Errors raised by the focus tools that the claims mention. -/
inductive AeroError where
  | presetNotFound (name : String) (available : List String)
  | displayMismatch (saved current : String)
deriving DecidableEq, Repr

/-- An `aerospace` command issued while applying a preset. -/
inductive Act where
  | focusWindow (window_id : Nat)
  | moveNodeToWorkspace (workspace : String)
deriving DecidableEq, Repr

/-- The fields of `load_focus_preset`'s result dict, together with the trace
of successfully executed `aerospace` commands. -/
structure LoadResult where
  preset_loaded : String
  adapted : Bool
  windows_arranged : Nat
  actions : List Act
deriving DecidableEq, Repr

/-- `save_focus_preset` (focus.py:308-361): snapshot the current windows,
display category and monitor names into a preset record and write it to the
store, overwriting any preset of the same name.  Returns the new store and
the saved record. -/
def save_focus_preset (store : PresetStore) (name : String)
    (description : Option String) (current_category : String)
    (all_windows : List LiveWindow) (monitors : List String)
    (created_at : String) : PresetStore × Preset :=
  let preset : Preset :=
    { name := name
      description := pyOrStr description ("Focus preset: " ++ name)
      display_category := current_category
      created_at := created_at
      windows := all_windows.map (fun w => ⟨w.app_name, w.workspace, w.is_focused⟩)
      monitors := monitors }
  (storePut store name preset, preset)

/-- The inner loop of `load_focus_preset` (focus.py:419-420): the first live
window whose `app-name` equals the entry's `app_name` (the `break` stops the
search at the first match). -/
def findMatchingWindow (all_windows : List LiveWindow) (app_name : String) :
    Option LiveWindow :=
  all_windows.find? (fun w => w.app_name == app_name)

/-- One iteration of the `for preset_window in preset_data["windows"]` loop
(focus.py:414-435): focus the first matching live window, move it to the
entry's workspace when that is truthy, count it as arranged; a raised
`AeroSpaceError` (modelled by `cmdFails` on the focused window id) is
swallowed and the entry is not counted. -/
def entryStep (cmdFails : Nat → Bool) (all_windows : List LiveWindow)
    (pw : PresetWindow) : Nat × List Act :=
  match findMatchingWindow all_windows pw.app_name with
  | none => (0, [])
  | some w =>
    if cmdFails w.window_id then (0, [])
    else
      match pw.workspace with
      | some ws =>
        if ws == "" then (1, [Act.focusWindow w.window_id])
        else (1, [Act.focusWindow w.window_id, Act.moveNodeToWorkspace ws])
      | none => (1, [Act.focusWindow w.window_id])

/-- The whole arrangement loop of `load_focus_preset`: total arranged count
and concatenated command trace. -/
def arrangeWindows (cmdFails : Nat → Bool) (all_windows : List LiveWindow) :
    List PresetWindow → Nat × List Act
  | [] => (0, [])
  | pw :: rest =>
    let s := entryStep cmdFails all_windows pw
    let r := arrangeWindows cmdFails all_windows rest
    (s.1 + r.1, s.2 ++ r.2)

/-- `load_focus_preset` (focus.py:364-442): look the preset up (raising
`PRESET_NOT_FOUND` with the available names when absent), compare the stored
display category with the current one (raising `DISPLAY_MISMATCH` when they
differ and adaptation is disabled; otherwise flagging `adapted`), then
arrange the windows. -/
def load_focus_preset (store : PresetStore) (name : String)
    (adapt_to_displays : Bool) (current_category : String)
    (all_windows : List LiveWindow) (cmdFails : Nat → Bool) :
    Except AeroError LoadResult :=
  match storeLookup store name with
  | none => .error (.presetNotFound name (availablePresets store))
  | some preset =>
    let mismatch := current_category != preset.display_category
    if mismatch && !adapt_to_displays then
      .error (.displayMismatch preset.display_category current_category)
    else
      let arr := arrangeWindows cmdFails all_windows preset.windows
      .ok { preset_loaded := name
            adapted := mismatch
            windows_arranged := arr.1
            actions := arr.2 }

/-- The category→preset-name table of `apply_focus_preset` (focus.py:156-163),
with its `.get(category, "medium_split")` default. -/
def presetForCategory (category : String) : String :=
  if category == "small_single" then "small_single_focus"
  else if category == "medium_single" then "medium_split"
  else if category == "large_single" then "large_centered"
  else if category == "dual_display" then "dual_monitor_focus"
  else if category == "triple_plus" then "triple_monitor_focus"
  else "medium_split"

/-- `apply_focus_preset`'s preset-name resolution (focus.py:155-163): only the
literal `"auto"` goes through the table. -/
def resolvePresetName (preset : String) (category : String) : String :=
  if preset == "auto" then presetForCategory category else preset

/-- Outcome of `apply_focus_preset`: either delegated to `load_focus_preset`
(focus.py:166-168) or handled by one of the built-in heuristic layouts
(focus.py:170-305, not further modelled since no claim concerns their
commands). -/
inductive ApplyOutcome where
  | delegated (r : Except AeroError LoadResult)
  | builtinLayout (resolved : String)
deriving Repr

/-- The preset-selection part of `apply_focus_preset` (focus.py:150-168):
resolve `"auto"` through the category table, and when a saved preset file
exists under the resolved name, return `load_focus_preset`'s result (called
with its default `adapt_to_displays=True`). -/
def apply_focus_preset (store : PresetStore) (preset : String)
    (current_category : String) (all_windows : List LiveWindow)
    (cmdFails : Nat → Bool) : ApplyOutcome :=
  let resolved := resolvePresetName preset current_category
  match storeLookup store resolved with
  | some _ =>
    .delegated (load_focus_preset store resolved true current_category all_windows cmdFails)
  | none => .builtinLayout resolved

/-! ## App categories (focus.py:28-81, 116-128, 745-749) -/

/-- Python's substring test `t in s`, on strings as character lists: `t`
occurs contiguously in `s` (always true for empty `t`). -/
def listIsInfixOf (t : List Char) : List Char → Bool
  | [] => t.isEmpty
  | c :: s2 => t.isPrefixOf (c :: s2) || listIsInfixOf t s2

/-- Python's `str.lower()`, as a character list (the app names involved are
ASCII, where `Char.toLower` agrees with Python). -/
def pyLower (s : String) : List Char :=
  s.toList.map Char.toLower

/-- The `APP_CATEGORIES` table (focus.py:28-81), in dict insertion order. -/
def APP_CATEGORIES : List (String × List String) :=
  [("communication",
    ["Slack", "Discord", "Mail", "Messages", "Microsoft Teams", "Zoom",
     "Telegram", "WhatsApp", "Signal"]),
   ("development",
    ["Visual Studio Code", "Code", "Xcode", "Terminal", "iTerm", "iTerm2",
     "IntelliJ IDEA", "PyCharm", "WebStorm", "Android Studio", "Sublime Text",
     "Atom", "Vim", "Neovim", "Emacs"]),
   ("reference",
    ["Google Chrome", "Chrome", "Safari", "Firefox", "Arc", "Notes", "Notion",
     "Obsidian", "Evernote", "Bear", "Preview", "Finder"]),
   ("media",
    ["Spotify", "Music", "Apple Music", "YouTube", "VLC", "Photos",
     "QuickTime Player", "IINA"])]

/-- The membership test
`app_name in apps or any(app.lower() in app_name.lower() for app in apps)`
used by `_get_app_category` (focus.py:126) and by
`move_app_category_to_monitor` (focus.py:747-749): exact membership or
case-insensitive substring containment of a known name. -/
def appMatchesCategory (app_name : String) (apps : List String) : Bool :=
  apps.contains app_name ||
    apps.any (fun app => listIsInfixOf (pyLower app) (pyLower app_name))

/-- `_get_app_category` (focus.py:116-128): the first category, in table
order, whose member list matches the application name. -/
def getAppCategory (app_name : String) : Option String :=
  (APP_CATEGORIES.find? (fun e => appMatchesCategory app_name e.2)).map
    (fun e => e.1)

/-- The window selection of `move_app_category_to_monitor`
(focus.py:742-749): the live windows whose application name matches the
requested category's member list; `none` when the category is not in the
table (the tool then raises `INVALID_PARAMETERS`, focus.py:693-698). -/
def moveCategoryWindows (category : String) (all_windows : List LiveWindow) :
    Option (List LiveWindow) :=
  (APP_CATEGORIES.find? (fun e => e.1 == category)).map
    (fun e => all_windows.filter (fun w => appMatchesCategory w.app_name e.2))

/-! ## Fullscreen toggle (window.py:301-349) -/

/-- A window in the window manager's own state, carrying the actual
fullscreen state that `aerospace list-windows` does not expose. -/
structure WMWindow where
  window_id : Nat
  app_name : String
  is_fullscreen : Bool
deriving DecidableEq, Repr

/-- `get_window_by_id`: the first listed window with the given id. -/
def getWindowById (windows : List WMWindow) (id : Nat) : Option WMWindow :=
  windows.find? (fun w => w.window_id == id)

/-- The `aerospace fullscreen` command applied to window `id`
(window.py:335): flips that window's actual fullscreen state. -/
def toggleFullscreen (windows : List WMWindow) (id : Nat) : List WMWindow :=
  windows.map (fun w =>
    if w.window_id == id then { w with is_fullscreen := !w.is_fullscreen }
    else w)

/-- `fullscreen_toggle`'s command-and-report step (window.py:335-349): issue
the toggle, re-query the window by id, and report `fullscreen := True`
whenever the lookup returns a window — `is_fullscreen` starts `False` and is
set to `True` on any found window, never reading the actual state.  Returns
the new window-manager state and the reported flag. -/
def fullscreen_toggle (windows : List WMWindow) (id : Nat) :
    List WMWindow × Bool :=
  let windows2 := toggleFullscreen windows id
  let updated := getWindowById windows2 id
  (windows2, updated.isSome)

/-! ## Size-inches estimate (display.py:204-228) -/

/-- The PPI heuristic of `get_display_info` (display.py:206-208): 220 for a
built-in display, 110 otherwise, overridden to 220 whenever the scale factor
exceeds 1 (a high-density panel). -/
def estimatePpi (is_builtin : Bool) (scale_factor : ℚ) : Nat :=
  let ppi := if is_builtin then 220 else 110
  if scale_factor > 1 then 220 else ppi

/-- Ten times the estimated diagonal size, exactly rounded to the nearest
integer.  With `width_inches = w / ppi` and
`height_inches = width_inches * 0.625` (display.py:211-213), the diagonal is
`(w / ppi) * sqrt (1 + (5/8)^2) = w * sqrt 89 / (8 * ppi)`, so
`round(diagonal, 1) * 10 = floor (10 * w * sqrt 89 / (8 * ppi) + 1/2)
= (floor (sqrt (8900 * w^2)) + 4 * ppi) / (8 * ppi)`; no rounding tie can
occur since the diagonal is irrational for `w > 0`. -/
def sizeInches10 (ppi width_px : Nat) : Nat :=
  (Nat.sqrt (8900 * width_px ^ 2) + 4 * ppi) / (8 * ppi)

/-- `size_inches` and `ppi` as computed by `get_display_info`
(display.py:204-219): the rounded diagonal estimate when the PPI and pixel
width are positive, else 0 for both. -/
def estimateSizeInches (is_builtin : Bool) (scale_factor : ℚ)
    (width_px : Nat) : ℚ × Nat :=
  let ppi := estimatePpi is_builtin scale_factor
  if 0 < ppi ∧ 0 < width_px then ((sizeInches10 ppi width_px : ℚ) / 10, ppi)
  else (0, 0)

/-- The `size_inches` field of a merged display record: 0 when no system
display was matched (display.py:220-228), otherwise the estimate from the
matched system display's built-in flag, scale factor and pixel width. -/
def displaySizeField (sys : Option (Bool × ℚ × Nat)) : ℚ :=
  match sys with
  | none => 0
  | some (b, sf, w) => (estimateSizeInches b sf w).1

end WinCtrl

namespace WinCtrl

/-! ## Theorems -/

/-- C1: `calculateDisplayCategory` returns `unknown` on the empty list,
`dual_display` on every 2-element list and `triple_plus` on every list of 3
or more displays; for those lengths the result is independent of the
displays' `size_inches` and resolution fields, since the statement quantifies
over all display lists of the given length.  Only the 1-element case (not
covered here) inspects the display itself. -/
theorem classify_by_count (ds : List Display) :
    (ds.length = 0 → (calculateDisplayCategory ds).1 = "unknown") ∧
    (ds.length = 2 → (calculateDisplayCategory ds).1 = "dual_display") ∧
    (3 ≤ ds.length → (calculateDisplayCategory ds).1 = "triple_plus") := by
  refine ⟨fun h0 => ?_, fun h2 => ?_, fun h3 => ?_⟩
  · simp [calculateDisplayCategory, h0]
  · simp [calculateDisplayCategory, h2]
  · have hne : ¬ ds.length = 0 := by omega
    simp [calculateDisplayCategory, hne, h3]

/-- Witness for `classify_by_count`: two displays of wildly different sizes
are still `dual_display`, and three are `triple_plus`. -/
theorem classify_by_count_witness :
    (calculateDisplayCategory []).1 = "unknown" ∧
    (calculateDisplayCategory
      [⟨5, none, none⟩, ⟨100, some ⟨2560, 1440⟩, none⟩]).1 = "dual_display" ∧
    (calculateDisplayCategory
      [⟨5, none, none⟩, ⟨100, none, none⟩, ⟨13, none, none⟩]).1 = "triple_plus" := by
  refine ⟨(classify_by_count []).1 rfl,
          ((classify_by_count _).2.1 rfl),
          ((classify_by_count _).2.2 (by decide))⟩

/-- C2: single-display classification.  When the display's `size_inches` is
available and nonzero (sizes produced by `get_display_info` are always
nonnegative, so nonzero means positive): `≥ 27` is `large_single`,
`[15, 27)` is `medium_single`, `< 15` is `small_single`.  When the size is
unknown or zero, the total pixel count of the effective resolution decides:
`≥ 3686400` is `large_single`, `≥ 1036800` is `medium_single`, anything less
is `small_single` (display.py:102-133). -/
theorem classify_single_display (d : Display) :
    (0 ≤ d.size_inches → d.size_inches ≠ 0 →
      ((27 ≤ d.size_inches → (calculateDisplayCategory [d]).1 = "large_single") ∧
       (15 ≤ d.size_inches → d.size_inches < 27 →
          (calculateDisplayCategory [d]).1 = "medium_single") ∧
       (d.size_inches < 15 → (calculateDisplayCategory [d]).1 = "small_single"))) ∧
    (d.size_inches = 0 →
      ((3686400 ≤ (displayResolution d).width * (displayResolution d).height →
          (calculateDisplayCategory [d]).1 = "large_single") ∧
       (1036800 ≤ (displayResolution d).width * (displayResolution d).height →
          (displayResolution d).width * (displayResolution d).height < 3686400 →
          (calculateDisplayCategory [d]).1 = "medium_single") ∧
       ((displayResolution d).width * (displayResolution d).height < 1036800 →
          (calculateDisplayCategory [d]).1 = "small_single"))) := by
  constructor
  · intro hnn hne
    have hpos : 0 < d.size_inches := lt_of_le_of_ne hnn (Ne.symm hne)
    refine ⟨fun h27 => ?_, fun h15 h27 => ?_, fun h15 => ?_⟩
    · simp [calculateDisplayCategory, hpos, h27]
    · simp [calculateDisplayCategory, hpos, h15, not_le.mpr h27]
    · simp [calculateDisplayCategory, hpos, not_le.mpr h15,
        not_le.mpr (lt_of_lt_of_le h15 (by norm_num : (15:ℚ) ≤ 27))]
  · intro hz
    refine ⟨fun hL => ?_, fun hM hL => ?_, fun hS => ?_⟩
    · simp [calculateDisplayCategory, hz, hL]
    · simp [calculateDisplayCategory, hz, hM, not_le.mpr hL]
    · simp [calculateDisplayCategory, hz, not_le.mpr hS,
        not_le.mpr (lt_of_lt_of_le hS (by norm_num : 1036800 ≤ 3686400))]

/-- Witness for `classify_single_display` at the spec's sample points:
13" is small, 15" and 26.9" are medium, 27" is large; with size 0, a
2560×1440 display is large, 1920×1080 is medium, 1024×768 is small. -/
theorem classify_single_display_witness :
    (calculateDisplayCategory [⟨13, none, none⟩]).1 = "small_single" ∧
    (calculateDisplayCategory [⟨15, none, none⟩]).1 = "medium_single" ∧
    (calculateDisplayCategory [⟨269/10, none, none⟩]).1 = "medium_single" ∧
    (calculateDisplayCategory [⟨27, none, none⟩]).1 = "large_single" ∧
    (calculateDisplayCategory [⟨0, some ⟨2560, 1440⟩, none⟩]).1 = "large_single" ∧
    (calculateDisplayCategory [⟨0, some ⟨1920, 1080⟩, none⟩]).1 = "medium_single" ∧
    (calculateDisplayCategory [⟨0, some ⟨1024, 768⟩, none⟩]).1 = "small_single" := by
  refine ⟨((classify_single_display _).1 (by norm_num) (by norm_num)).2.2 (by norm_num),
          (((classify_single_display _).1 (by norm_num) (by norm_num)).2.1 (by norm_num)
            (by norm_num)),
          (((classify_single_display _).1 (by norm_num) (by norm_num)).2.1 (by norm_num)
            (by norm_num)),
          ((classify_single_display _).1 (by norm_num) (by norm_num)).1 (by norm_num),
          ((classify_single_display _).2 rfl).1 (by norm_num [displayResolution]),
          (((classify_single_display _).2 rfl).2.1 (by norm_num [displayResolution])
            (by norm_num [displayResolution])),
          ((classify_single_display _).2 rfl).2.2 (by norm_num [displayResolution])⟩

/-! ### Helper lemmas about the preset store and the arrangement loop -/

/-- Saving writes the record under the preset's name: an immediate lookup
finds exactly the saved record (overwrite semantics). -/
theorem storeLookup_storePut (store : PresetStore) (name : String) (p : Preset) :
    storeLookup (storePut store name p) name = some p := by
  simp [storeLookup, storePut, List.find?]

/-- The first-match search succeeds exactly when some live window's
application name equals the requested one. -/
theorem findMatchingWindow_isSome (aws : List LiveWindow) (a : String) :
    (findMatchingWindow aws a).isSome = aws.any (fun w => w.app_name == a) := by
  induction aws with
  | nil => rfl
  | cons w rest ih =>
    unfold findMatchingWindow at ih ⊢
    cases h : (w.app_name == a) <;> simp [List.find?, h] <;> simp [ih]

/-- A single loop iteration arranges at most one window. -/
theorem entryStep_count_le_one (f : Nat → Bool) (aws : List LiveWindow)
    (pw : PresetWindow) : (entryStep f aws pw).1 ≤ 1 := by
  unfold entryStep
  cases findMatchingWindow aws pw.app_name with
  | none => simp
  | some w =>
    by_cases hf : f w.window_id = true
    · simp [hf]
    · cases pw.workspace with
      | none => simp [hf]
      | some ws =>
        by_cases he : (ws == "") = true
        · simp [hf, he]
        · simp [hf, he]

/-- With no command failures, a loop iteration arranges a window exactly when
the entry has a matching live window. -/
theorem entryStep_count_noFail (aws : List LiveWindow) (pw : PresetWindow) :
    (entryStep (fun _ => false) aws pw).1 =
      if (findMatchingWindow aws pw.app_name).isSome then 1 else 0 := by
  unfold entryStep
  cases findMatchingWindow aws pw.app_name with
  | none => simp
  | some w =>
    cases pw.workspace <;> simp
    split <;> simp

/-- With no command failures, the loop iteration for an entry with a match
focuses the matched window and, when the entry records a truthy workspace,
moves to it. -/
theorem entryStep_mem_noFail (aws : List LiveWindow) (pw : PresetWindow)
    (lw : LiveWindow) (h : findMatchingWindow aws pw.app_name = some lw) :
    Act.focusWindow lw.window_id ∈ (entryStep (fun _ => false) aws pw).2 ∧
    (∀ wsp, pw.workspace = some wsp → wsp ≠ "" →
      Act.moveNodeToWorkspace wsp ∈ (entryStep (fun _ => false) aws pw).2) := by
  unfold entryStep
  rw [h]
  cases hws : pw.workspace with
  | none => simp
  | some ws =>
    simp only [Bool.false_eq_true, if_false]
    cases hempty : (ws == "") with
    | true =>
      have : ws = "" := by simpa using hempty
      simp [hempty, this]
    | false =>
      have hne : ws ≠ "" := by simpa using hempty
      simp [hempty]

/-- With no command failures, the arrangement loop counts exactly the entries
that have a matching live window. -/
theorem arrangeWindows_count_noFail (aws : List LiveWindow)
    (l : List PresetWindow) :
    (arrangeWindows (fun _ => false) aws l).1 =
      l.countP (fun pw => (findMatchingWindow aws pw.app_name).isSome) := by
  induction l with
  | nil => simp [arrangeWindows]
  | cons pw rest ih =>
    simp only [arrangeWindows, List.countP_cons, ih, entryStep_count_noFail]
    cases h : (findMatchingWindow aws pw.app_name).isSome <;> simp [h] <;> omega

/-- The arrangement loop never arranges more windows than the preset has
entries. -/
theorem arrangeWindows_count_le (f : Nat → Bool) (aws : List LiveWindow)
    (l : List PresetWindow) : (arrangeWindows f aws l).1 ≤ l.length := by
  induction l with
  | nil => simp [arrangeWindows]
  | cons pw rest ih =>
    have h1 := entryStep_count_le_one f aws pw
    simp only [arrangeWindows, List.length_cons]
    omega

/-- Commands of one entry's iteration appear in the loop's whole trace. -/
theorem entryStep_sub_arrangeWindows (f : Nat → Bool) (aws : List LiveWindow)
    (l : List PresetWindow) (pw : PresetWindow) (hmem : pw ∈ l) (a : Act)
    (ha : a ∈ (entryStep f aws pw).2) : a ∈ (arrangeWindows f aws l).2 := by
  induction l with
  | nil => cases hmem
  | cons q rest ih =>
    rcases List.mem_cons.mp hmem with h | h
    · subst h
      exact (List.mem_append).mpr (Or.inl ha)
    · exact (List.mem_append).mpr (Or.inr (ih h))

/-- Every focus command in one entry's iteration targets the first live
window matching that entry's application name. -/
theorem entryStep_focus_mem (f : Nat → Bool) (aws : List LiveWindow)
    (pw : PresetWindow) (i : Nat)
    (h : Act.focusWindow i ∈ (entryStep f aws pw).2) :
    ∃ w, findMatchingWindow aws pw.app_name = some w ∧ w.window_id = i := by
  unfold entryStep at h
  cases hm : findMatchingWindow aws pw.app_name with
  | none => rw [hm] at h; cases h
  | some w =>
    rw [hm] at h
    refine ⟨w, rfl, ?_⟩
    by_cases hf : f w.window_id = true
    · simp [hf] at h
    · cases hws : pw.workspace with
      | none =>
        rw [hws] at h
        simp [hf] at h
        omega
      | some ws =>
        rw [hws] at h
        by_cases he : (ws == "") = true
        · simp [hf, he] at h; omega
        · simp [hf, he] at h; omega

/-- Every focus command in the loop's trace is the first match of some
preset entry. -/
theorem arrangeWindows_focus_mem (f : Nat → Bool) (aws : List LiveWindow)
    (l : List PresetWindow) (i : Nat)
    (h : Act.focusWindow i ∈ (arrangeWindows f aws l).2) :
    ∃ pw ∈ l, ∃ w, findMatchingWindow aws pw.app_name = some w ∧
      w.window_id = i := by
  induction l with
  | nil => cases h
  | cons q rest ih =>
    rcases List.mem_append.mp h with h1 | h1
    · exact ⟨q, List.mem_cons_self _ _, entryStep_focus_mem f aws q i h1⟩
    · rcases ih h1 with ⟨pw, hpw, hw⟩
      exact ⟨pw, List.mem_cons_of_mem _ hpw, hw⟩

/-! ### Claim theorems about the preset store -/

/-- C3: loading a preset whose stored display category differs from the
current one fails with `DISPLAY_MISMATCH` when `adapt_to_displays` is false
(returning an error, hence an empty command trace — no window is
rearranged), succeeds with `adapted = true` when it is true; when the
categories agree the load succeeds with `adapted = false` whatever the flag
(focus.py:394-407). -/
theorem load_preset_display_mismatch (store : PresetStore) (name : String)
    (p : Preset) (current : String) (aws : List LiveWindow) (f : Nat → Bool)
    (hlook : storeLookup store name = some p) :
    (p.display_category ≠ current →
      load_focus_preset store name false current aws f =
        .error (.displayMismatch p.display_category current) ∧
      ∃ r, load_focus_preset store name true current aws f = .ok r ∧
        r.adapted = true) ∧
    (p.display_category = current →
      ∀ adapt, ∃ r, load_focus_preset store name adapt current aws f = .ok r ∧
        r.adapted = false) := by
  constructor
  · intro hne
    have hb : (current != p.display_category) = true := bne_iff_ne.mpr (Ne.symm hne)
    refine ⟨by simp [load_focus_preset, hlook, hb], ?_⟩
    exact ⟨⟨name, true, (arrangeWindows f aws p.windows).1,
            (arrangeWindows f aws p.windows).2⟩,
           by simp [load_focus_preset, hlook, hb], rfl⟩
  · intro heq adapt
    have hb : (current != p.display_category) = false := by
      rw [← heq]; exact bne_self_eq_false _
    exact ⟨⟨name, false, (arrangeWindows f aws p.windows).1,
            (arrangeWindows f aws p.windows).2⟩,
           by simp [load_focus_preset, hlook, hb], rfl⟩

/-- Witness for `load_preset_display_mismatch`: a preset saved under
`dual_display`, loaded under `small_single`, fails without adaptation,
adapts with the flag, and loads unadapted when the category is unchanged. -/
theorem load_preset_display_mismatch_witness :
    load_focus_preset [("work", ⟨"work", "d", "dual_display", "t", [], []⟩)]
        "work" false "small_single" [] (fun _ => false) =
      .error (.displayMismatch "dual_display" "small_single") ∧
    (∃ r, load_focus_preset [("work", ⟨"work", "d", "dual_display", "t", [], []⟩)]
        "work" true "small_single" [] (fun _ => false) = .ok r ∧
      r.adapted = true) ∧
    (∃ r, load_focus_preset [("work", ⟨"work", "d", "dual_display", "t", [], []⟩)]
        "work" false "dual_display" [] (fun _ => false) = .ok r ∧
      r.adapted = false) := by
  have h := load_preset_display_mismatch
    [("work", ⟨"work", "d", "dual_display", "t", [], []⟩)] "work"
    ⟨"work", "d", "dual_display", "t", [], []⟩ "small_single" [] (fun _ => false)
    (by rfl)
  have h2 := load_preset_display_mismatch
    [("work", ⟨"work", "d", "dual_display", "t", [], []⟩)] "work"
    ⟨"work", "d", "dual_display", "t", [], []⟩ "dual_display" [] (fun _ => false)
    (by rfl)
  exact ⟨(h.1 (by decide)).1, (h.1 (by decide)).2, h2.2 rfl false⟩

/-- C6: loading a name with no stored file fails with `PRESET_NOT_FOUND`
whose details are exactly the names of all stored presets, and an empty or
absent store directory yields the empty list (focus.py:377-389); the error
is raised before any window is touched, so the result carries no commands. -/
theorem load_preset_not_found (store : PresetStore) (name : String)
    (adapt : Bool) (current : String) (aws : List LiveWindow) (f : Nat → Bool)
    (hlook : storeLookup store name = none) :
    load_focus_preset store name adapt current aws f =
      .error (.presetNotFound name (availablePresets store)) ∧
    availablePresets ([] : PresetStore) = [] :=
  ⟨by simp [load_focus_preset, hlook], rfl⟩

/-- Witness for `load_preset_not_found`: a store holding only `"a"` rejects
`"b"` listing `["a"]`, and the empty store rejects `"x"` listing `[]`. -/
theorem load_preset_not_found_witness :
    load_focus_preset [("a", ⟨"a", "d", "dual_display", "t", [], []⟩)]
        "b" true "unknown" [] (fun _ => false) =
      .error (.presetNotFound "b" ["a"]) ∧
    load_focus_preset [] "x" true "unknown" [] (fun _ => false) =
      .error (.presetNotFound "x" []) := by
  refine ⟨?_, ?_⟩
  · have h := load_preset_not_found
      [("a", ⟨"a", "d", "dual_display", "t", [], []⟩)] "b" true "unknown" []
      (fun _ => false) (by rfl)
    exact h.1
  · have h := load_preset_not_found [] "x" true "unknown" [] (fun _ => false) rfl
    exact h.1

/-- C4: round trip.  Saving a preset and loading it back under the same
display category succeeds with `adapted = false`, arranges exactly the
recorded entries whose application name matches some live window (entries
with no live match are silently skipped), and for each matched entry focuses
the first matching live window and moves it to the recorded workspace when
one is recorded (focus.py:308-361, 409-442). -/
theorem save_load_round_trip (store : PresetStore) (name : String)
    (desc : Option String) (category : String) (windowsSave : List LiveWindow)
    (monitors : List String) (ts : String) (windowsLoad : List LiveWindow)
    (adapt : Bool) :
    ∃ r, load_focus_preset
        (save_focus_preset store name desc category windowsSave monitors ts).1
        name adapt category windowsLoad (fun _ => false) = .ok r ∧
      r.adapted = false ∧
      r.windows_arranged = windowsSave.countP
        (fun w => windowsLoad.any (fun lw => lw.app_name == w.app_name)) ∧
      (∀ w ∈ windowsSave, ∀ lw,
        findMatchingWindow windowsLoad w.app_name = some lw →
        Act.focusWindow lw.window_id ∈ r.actions ∧
        (∀ wsp, w.workspace = some wsp → wsp ≠ "" →
          Act.moveNodeToWorkspace wsp ∈ r.actions)) := by
  have hlook : storeLookup
      (save_focus_preset store name desc category windowsSave monitors ts).1 name =
      some ⟨name, pyOrStr desc ("Focus preset: " ++ name), category, ts,
        windowsSave.map (fun w => ⟨w.app_name, w.workspace, w.is_focused⟩),
        monitors⟩ :=
    storeLookup_storePut store name _
  refine ⟨⟨name, false,
    (arrangeWindows (fun _ => false) windowsLoad
      (windowsSave.map (fun w => ⟨w.app_name, w.workspace, w.is_focused⟩))).1,
    (arrangeWindows (fun _ => false) windowsLoad
      (windowsSave.map (fun w => ⟨w.app_name, w.workspace, w.is_focused⟩))).2⟩,
    ?_, rfl, ?_, ?_⟩
  · simp [load_focus_preset, hlook, bne_self_eq_false]
  · rw [arrangeWindows_count_noFail, List.countP_map]
    refine List.countP_congr ?_
    intro w _
    simp [Function.comp, findMatchingWindow_isSome]
  · intro w hw lw hfind
    have hmem : (⟨w.app_name, w.workspace, w.is_focused⟩ : PresetWindow) ∈
        windowsSave.map (fun w => (⟨w.app_name, w.workspace, w.is_focused⟩ : PresetWindow)) :=
      List.mem_map_of_mem _ hw
    have hstep := entryStep_mem_noFail windowsLoad
      ⟨w.app_name, w.workspace, w.is_focused⟩ lw hfind
    exact ⟨entryStep_sub_arrangeWindows _ _ _ _ hmem _ hstep.1,
      fun wsp hwsp hne =>
        entryStep_sub_arrangeWindows _ _ _ _ hmem _ (hstep.2 wsp hwsp hne)⟩

/-- Witness for `save_load_round_trip`: two windows saved (Slack on
workspace 2, Ghostty), loaded against live windows holding two Slack windows
and no Ghostty: one window arranged, the first Slack window (id 7) focused
and moved to workspace 2, `adapted = false`. -/
theorem save_load_round_trip_witness :
    ∃ r, load_focus_preset
        (save_focus_preset [] "daily" none "medium_single"
          [⟨1, "Slack", some "2", true⟩, ⟨2, "Ghostty", none, false⟩]
          ["M1"] "t").1
        "daily" true "medium_single"
        [⟨7, "Slack", some "1", false⟩, ⟨8, "Slack", some "3", false⟩]
        (fun _ => false) = .ok r ∧
      r.adapted = false ∧ r.windows_arranged = 1 ∧
      Act.focusWindow 7 ∈ r.actions ∧
      Act.moveNodeToWorkspace "2" ∈ r.actions := by
  obtain ⟨r, h1, h2, h3, h4⟩ := save_load_round_trip [] "daily" none "medium_single"
    [⟨1, "Slack", some "2", true⟩, ⟨2, "Ghostty", none, false⟩] ["M1"] "t"
    [⟨7, "Slack", some "1", false⟩, ⟨8, "Slack", some "3", false⟩] true
  have hm := h4 ⟨1, "Slack", some "2", true⟩ (by simp)
    ⟨7, "Slack", some "1", false⟩ (by decide)
  exact ⟨r, h1, h2, by rw [h3]; decide, hm.1, hm.2 "2" rfl (by decide)⟩

/-- C8: `load_focus_preset` acts on at most one live window per recorded
entry.  The arranged count never exceeds the number of preset entries, and
every focus command in the trace targets the first live window matching some
entry's application name (the inner loop breaks at the first match), so live
windows of an application beyond the first are never focused; duplicate
entries for one application repeatedly target that same first window
(focus.py:414-435). -/
theorem load_first_match_only (store : PresetStore) (name : String)
    (adapt : Bool) (current : String) (aws : List LiveWindow) (f : Nat → Bool)
    (p : Preset) (r : LoadResult)
    (hlook : storeLookup store name = some p)
    (hok : load_focus_preset store name adapt current aws f = .ok r) :
    r.windows_arranged ≤ p.windows.length ∧
    (∀ i, Act.focusWindow i ∈ r.actions →
      ∃ pw ∈ p.windows, ∃ w, findMatchingWindow aws pw.app_name = some w ∧
        w.window_id = i) := by
  unfold load_focus_preset at hok
  rw [hlook] at hok
  by_cases hc : ((current != p.display_category) && !adapt) = true
  · simp [hc] at hok
  · simp only [Bool.not_eq_true] at hc
    simp [hc] at hok
    subst hok
    exact ⟨arrangeWindows_count_le f aws p.windows,
      fun i hi => arrangeWindows_focus_mem f aws p.windows i hi⟩

/-- Witness for `load_first_match_only`: a preset with two identical Slack
entries, loaded against two live Slack windows (ids 1 and 2), arranges 2 ≤ 2
windows and focuses only window 1 — twice; window 2 is never focused. -/
theorem load_first_match_only_witness :
    (⟨"dup", false, 2, [Act.focusWindow 1, Act.focusWindow 1]⟩ :
        LoadResult).windows_arranged ≤
      (Preset.mk "dup" "d" "unknown" "t"
        [⟨"Slack", none, false⟩, ⟨"Slack", none, false⟩] []).windows.length ∧
    (∀ i, Act.focusWindow i ∈ (⟨"dup", false, 2,
        [Act.focusWindow 1, Act.focusWindow 1]⟩ : LoadResult).actions →
      ∃ pw ∈ (Preset.mk "dup" "d" "unknown" "t"
          [⟨"Slack", none, false⟩, ⟨"Slack", none, false⟩] []).windows,
        ∃ w, findMatchingWindow
            [⟨1, "Slack", none, false⟩, ⟨2, "Slack", none, false⟩]
            pw.app_name = some w ∧
          w.window_id = i) :=
  load_first_match_only
    [("dup", Preset.mk "dup" "d" "unknown" "t"
        [⟨"Slack", none, false⟩, ⟨"Slack", none, false⟩] [])]
    "dup" true "unknown"
    [⟨1, "Slack", none, false⟩, ⟨2, "Slack", none, false⟩]
    (fun _ => false) _ _ (by decide) rfl

/-- C5: `apply_focus_preset` resolves `"auto"` through the fixed
category→preset-name table with default `medium_split`, and whenever a saved
preset file exists under the resolved name it delegates entirely to
`load_focus_preset` (with its default `adapt_to_displays = true`) and
returns its result (focus.py:150-168). -/
theorem apply_preset_auto_resolution (store : PresetStore) (preset : String)
    (current : String) (aws : List LiveWindow) (f : Nat → Bool) :
    (resolvePresetName "auto" "small_single" = "small_single_focus" ∧
     resolvePresetName "auto" "medium_single" = "medium_split" ∧
     resolvePresetName "auto" "large_single" = "large_centered" ∧
     resolvePresetName "auto" "dual_display" = "dual_monitor_focus" ∧
     resolvePresetName "auto" "triple_plus" = "triple_monitor_focus" ∧
     (∀ c, c ≠ "small_single" → c ≠ "medium_single" → c ≠ "large_single" →
       c ≠ "dual_display" → c ≠ "triple_plus" →
       resolvePresetName "auto" c = "medium_split")) ∧
    (∀ p, storeLookup store (resolvePresetName preset current) = some p →
      apply_focus_preset store preset current aws f =
        .delegated (load_focus_preset store (resolvePresetName preset current)
          true current aws f)) := by
  constructor
  · refine ⟨rfl, rfl, rfl, rfl, rfl, ?_⟩
    intro c h1 h2 h3 h4 h5
    simp [resolvePresetName, presetForCategory, beq_iff_eq, h1, h2, h3, h4, h5]
  · intro p hlook
    simp [apply_focus_preset, hlook]

/-- Witness for `apply_preset_auto_resolution`: with a preset stored under
`medium_split`, applying `"auto"` in category `medium_single` resolves to
`medium_split` and delegates to the load; and an unknown category resolves
to the default `medium_split`. -/
theorem apply_preset_auto_resolution_witness :
    apply_focus_preset
        [("medium_split", ⟨"medium_split", "d", "medium_single", "t", [], []⟩)]
        "auto" "medium_single" [] (fun _ => false) =
      .delegated (load_focus_preset
        [("medium_split", ⟨"medium_split", "d", "medium_single", "t", [], []⟩)]
        "medium_split" true "medium_single" [] (fun _ => false)) ∧
    resolvePresetName "auto" "weird_category" = "medium_split" := by
  have h := apply_preset_auto_resolution
    [("medium_split", ⟨"medium_split", "d", "medium_single", "t", [], []⟩)]
    "auto" "medium_single" [] (fun _ => false)
  exact ⟨h.2 ⟨"medium_split", "d", "medium_single", "t", [], []⟩ (by decide),
    h.1.2.2.2.2.2 "weird_category" (by decide) (by decide) (by decide)
      (by decide) (by decide)⟩

/-- C9: app-category membership is decided by case-insensitive substring
containment, not exact equality.  Any application name containing `mail`
(case-insensitively) is categorized as `communication` by
`_get_app_category`, and is selected by `move_app_category_to_monitor` for
the `communication` category; in particular `MyMailApp` counts as
communication although it appears in no category's member list. -/
theorem app_category_substring (app : String) (w : LiveWindow)
    (aws : List LiveWindow) :
    (listIsInfixOf "mail".toList (pyLower app) = true →
      getAppCategory app = some "communication") ∧
    (w ∈ aws → listIsInfixOf "mail".toList (pyLower w.app_name) = true →
      ∃ sel, moveCategoryWindows "communication" aws = some sel ∧ w ∈ sel) ∧
    (getAppCategory "MyMailApp" = some "communication" ∧
      APP_CATEGORIES.all (fun e => !(e.2.contains "MyMailApp")) = true) := by
  have hM : pyLower "Mail" = "mail".toList := by decide
  have hmatch : ∀ a : String, listIsInfixOf "mail".toList (pyLower a) = true →
      appMatchesCategory a
        ["Slack", "Discord", "Mail", "Messages", "Microsoft Teams", "Zoom",
         "Telegram", "WhatsApp", "Signal"] = true := by
    intro a ha
    have hany :
        (["Slack", "Discord", "Mail", "Messages", "Microsoft Teams", "Zoom",
          "Telegram", "WhatsApp", "Signal"] : List String).any
          (fun app2 => listIsInfixOf (pyLower app2) (pyLower a)) = true := by
      apply List.any_eq_true.mpr
      refine ⟨"Mail", by simp, ?_⟩
      rw [hM]
      exact ha
    unfold appMatchesCategory
    rw [hany, Bool.or_true]
  refine ⟨fun ha => ?_, fun hw ha => ?_, ?_, by decide⟩
  · simp [getAppCategory, APP_CATEGORIES, List.find?, hmatch app ha]
  · refine ⟨aws.filter (fun v => appMatchesCategory v.app_name
      ["Slack", "Discord", "Mail", "Messages", "Microsoft Teams", "Zoom",
       "Telegram", "WhatsApp", "Signal"]), ?_, ?_⟩
    · simp [moveCategoryWindows, APP_CATEGORIES, List.find?]
    · exact List.mem_filter.mpr ⟨hw, hmatch w.app_name ha⟩
  · have : listIsInfixOf "mail".toList (pyLower "MyMailApp") = true := by decide
    simp [getAppCategory, APP_CATEGORIES, List.find?, hmatch "MyMailApp" this]

/-- Witness for `app_category_substring`: the live window `MailPlane 4` is
selected for the communication category even though its name is in no
member list. -/
theorem app_category_substring_witness :
    listIsInfixOf "mail".toList (pyLower "MailPlane 4") = true ∧
    getAppCategory "MailPlane 4" = some "communication" ∧
    (∃ sel, moveCategoryWindows "communication"
        [⟨3, "MailPlane 4", none, false⟩] = some sel ∧
      (⟨3, "MailPlane 4", none, false⟩ : LiveWindow) ∈ sel) := by
  have h := app_category_substring "MailPlane 4"
    ⟨3, "MailPlane 4", none, false⟩ [⟨3, "MailPlane 4", none, false⟩]
  exact ⟨by decide, h.1 (by decide), h.2.1 (by simp) (by decide)⟩

/-- Follow-up lookup after the toggle: the re-query by id returns exactly the
pre-toggle window with its fullscreen state flipped. -/
theorem getWindowById_toggleFullscreen (ws : List WMWindow) (id : Nat) :
    getWindowById (toggleFullscreen ws id) id =
      (getWindowById ws id).map
        (fun w => { w with is_fullscreen := !w.is_fullscreen }) := by
  induction ws with
  | nil => rfl
  | cons w rest ih =>
    unfold getWindowById toggleFullscreen at ih ⊢
    cases h : (w.window_id == id) <;> simp [List.find?, h] <;> simpa using ih

/-- C10: `fullscreen_toggle` reports `fullscreen = true` for any window that
is still listed after the toggle command, without re-querying the actual
fullscreen state: in particular a window that was fullscreen before the
toggle ends up windowed (`is_fullscreen = false`), yet the response still
says `fullscreen = true` (window.py:335-349). -/
theorem fullscreen_toggle_reports_true (ws : List WMWindow) (id : Nat)
    (w : WMWindow) (hfind : getWindowById ws id = some w) :
    (fullscreen_toggle ws id).2 = true ∧
    (w.is_fullscreen = true →
      getWindowById (fullscreen_toggle ws id).1 id =
        some { w with is_fullscreen := false }) := by
  constructor
  · simp [fullscreen_toggle, getWindowById_toggleFullscreen, hfind]
  · intro hfs
    simp [fullscreen_toggle, getWindowById_toggleFullscreen, hfind, hfs]

/-- Witness for `fullscreen_toggle_reports_true`: toggling the fullscreen
window 1 leaves it windowed, yet the response reports `fullscreen = true`. -/
theorem fullscreen_toggle_reports_true_witness :
    (fullscreen_toggle [⟨1, "Safari", true⟩] 1).2 = true ∧
    getWindowById (fullscreen_toggle [⟨1, "Safari", true⟩] 1).1 1 =
      some ⟨1, "Safari", false⟩ := by
  have h := fullscreen_toggle_reports_true [⟨1, "Safari", true⟩] 1
    ⟨1, "Safari", true⟩ (by decide)
  exact ⟨h.1, h.2 rfl⟩

/-! ### Helper lemmas for the size estimate -/

/-- Definitional unfolding of `sizeInches10`, stated as an equation so that
rewriting never asks the kernel to evaluate `Nat.sqrt` on closed terms. -/
theorem sizeInches10_def (p w : Nat) :
    sizeInches10 p w = (Nat.sqrt (8900 * w ^ 2) + 4 * p) / (8 * p) := rfl

/-- The PPI heuristic always returns a positive value (110 or 220). -/
theorem estimatePpi_pos (b : Bool) (sf : ℚ) : 0 < estimatePpi b sf := by
  unfold estimatePpi
  by_cases hsf : sf > 1 <;> by_cases hb : b <;> simp [hsf, hb]

/-- On a positive pixel width the estimate takes the computed branch. -/
theorem estimateSizeInches_pos (b : Bool) (sf : ℚ) (w : Nat) (hw : 0 < w) :
    estimateSizeInches b sf w =
      ((sizeInches10 (estimatePpi b sf) w : ℚ) / 10, estimatePpi b sf) := by
  unfold estimateSizeInches
  rw [if_pos ⟨estimatePpi_pos b sf, hw⟩]

/-- Upper half of the rounding bracket: `8900 w² ≤ (8 p n + 4 p)²` for
`n = sizeInches10 p w`. -/
theorem sizeInches10_upper (p w : Nat) (hp : 0 < p) :
    (8900 * w ^ 2 : ℚ) ≤ (8 * (p : ℚ) * (sizeInches10 p w) + 4 * p) ^ 2 := by
  have h8p : 0 < 8 * p := by omega
  have hn : sizeInches10 p w = (Nat.sqrt (8900 * w ^ 2) + 4 * p) / (8 * p) :=
    sizeInches10_def p w
  have hub : Nat.sqrt (8900 * w ^ 2) + 4 * p < (sizeInches10 p w + 1) * (8 * p) :=
    (Nat.div_lt_iff_lt_mul h8p).mp (by omega)
  have hS2 : 8900 * w ^ 2 < (Nat.sqrt (8900 * w ^ 2) + 1) ^ 2 :=
    Nat.lt_succ_sqrt' _
  have hnat : 8900 * w ^ 2 ≤ (8 * p * sizeInches10 p w + 4 * p) ^ 2 := by
    have h1 : Nat.sqrt (8900 * w ^ 2) + 1 ≤ 8 * p * sizeInches10 p w + 4 * p := by
      nlinarith [hub]
    exact le_of_lt (lt_of_lt_of_le hS2 (Nat.pow_le_pow_left h1 2))
  exact_mod_cast hnat

/-- Lower half of the rounding bracket: `(8 p n - 4 p)² ≤ 8900 w²` when the
rounded value `n = sizeInches10 p w` is at least 1. -/
theorem sizeInches10_lower (p w : Nat) (hp : 0 < p)
    (hn1 : 1 ≤ sizeInches10 p w) :
    (8 * (p : ℚ) * (sizeInches10 p w) - 4 * p) ^ 2 ≤ (8900 * w ^ 2 : ℚ) := by
  have hlb : sizeInches10 p w * (8 * p) ≤ Nat.sqrt (8900 * w ^ 2) + 4 * p :=
    Nat.div_mul_le_self _ _
  have hS1 : Nat.sqrt (8900 * w ^ 2) ^ 2 ≤ 8900 * w ^ 2 := Nat.sqrt_le' _
  have hlbQ : (sizeInches10 p w : ℚ) * (8 * p) ≤
      Nat.sqrt (8900 * w ^ 2) + 4 * p := by exact_mod_cast hlb
  have hS1Q : ((Nat.sqrt (8900 * w ^ 2) : ℚ)) ^ 2 ≤ 8900 * w ^ 2 := by
    exact_mod_cast hS1
  have hx : (0 : ℚ) ≤ 8 * (p : ℚ) * (sizeInches10 p w) - 4 * p := by
    have h1 : (1 : ℚ) ≤ (sizeInches10 p w : ℚ) := by exact_mod_cast hn1
    have hpQ : (0 : ℚ) < (p : ℚ) := by exact_mod_cast hp
    nlinarith
  have hSx : 8 * (p : ℚ) * (sizeInches10 p w) - 4 * p ≤
      (Nat.sqrt (8900 * w ^ 2) : ℚ) := by linarith [hlbQ]
  nlinarith [hx, hSx, hS1Q]

/-- C7: the size estimate of `get_display_info` (display.py:204-228) uses
`ppi = 220` exactly when the display is built-in or its scale factor exceeds
1, else 110; for a positive pixel width `w` the `size_inches` value is
`n / 10` where `n` is within 1/2 of ten times the Euclidean diagonal
`sqrt (width_inches² + height_inches²)` of `width_inches = w / ppi` and
`height_inches = width_inches * 0.625` — i.e. the diagonal rounded to one
decimal place (the bracket `100·(win² + hin²) ≤ (n + 1/2)²` and
`(n − 1/2)² ≤ 100·(win² + hin²)` pins `n` as that rounding, squares standing
in for the irrational square root); a zero pixel width or an unmatched
system display yields `size_inches = 0`. -/
theorem size_inches_estimate (b : Bool) (sf : ℚ) (w : Nat) (hw : 0 < w) :
    estimatePpi b sf = (if b = true ∨ 1 < sf then 220 else 110) ∧
    (estimateSizeInches b sf w).2 = estimatePpi b sf ∧
    (∃ n : Nat, (estimateSizeInches b sf w).1 = (n : ℚ) / 10 ∧
      100 * (((w : ℚ) / estimatePpi b sf) ^ 2 +
          (((w : ℚ) / estimatePpi b sf) * (5 / 8)) ^ 2) ≤
        ((n : ℚ) + 1 / 2) ^ 2 ∧
      (n = 0 ∨ ((n : ℚ) - 1 / 2) ^ 2 ≤
        100 * (((w : ℚ) / estimatePpi b sf) ^ 2 +
          (((w : ℚ) / estimatePpi b sf) * (5 / 8)) ^ 2))) ∧
    (∀ b2 sf2, estimateSizeInches b2 sf2 0 = (0, 0)) ∧
    displaySizeField none = 0 := by
  have hp : 0 < estimatePpi b sf := estimatePpi_pos b sf
  have hpQ : (0 : ℚ) < (estimatePpi b sf : ℚ) := by exact_mod_cast hp
  refine ⟨?_, ?_, ?_, ?_, rfl⟩
  · by_cases hsf : sf > 1 <;> by_cases hb : b <;> simp [estimatePpi, hsf, hb]
  · rw [estimateSizeInches_pos b sf w hw]
  · refine ⟨sizeInches10 (estimatePpi b sf) w, ?_, ?_, ?_⟩
    · rw [estimateSizeInches_pos b sf w hw]
    · have key := sizeInches10_upper (estimatePpi b sf) w hp
      have lhs_eq : 100 * (((w : ℚ) / estimatePpi b sf) ^ 2 +
          (((w : ℚ) / estimatePpi b sf) * (5 / 8)) ^ 2) =
          (8900 * (w : ℚ) ^ 2) / (64 * (estimatePpi b sf : ℚ) ^ 2) := by
        field_simp
        ring
      rw [lhs_eq, div_le_iff (by positivity)]
      have expand : (8 * (estimatePpi b sf : ℚ) *
            (sizeInches10 (estimatePpi b sf) w) + 4 * (estimatePpi b sf : ℚ)) ^ 2 =
          ((sizeInches10 (estimatePpi b sf) w : ℚ) + 1 / 2) ^ 2 *
            (64 * (estimatePpi b sf : ℚ) ^ 2) := by ring
      rw [← expand]
      exact key
    · rcases Nat.eq_zero_or_pos (sizeInches10 (estimatePpi b sf) w) with h0 | h1
      · exact Or.inl h0
      · refine Or.inr ?_
        have key := sizeInches10_lower (estimatePpi b sf) w hp h1
        have lhs_eq : 100 * (((w : ℚ) / estimatePpi b sf) ^ 2 +
            (((w : ℚ) / estimatePpi b sf) * (5 / 8)) ^ 2) =
            (8900 * (w : ℚ) ^ 2) / (64 * (estimatePpi b sf : ℚ) ^ 2) := by
          field_simp
          ring
        rw [lhs_eq, le_div_iff (by positivity)]
        have expand : (8 * (estimatePpi b sf : ℚ) *
              (sizeInches10 (estimatePpi b sf) w) - 4 * (estimatePpi b sf : ℚ)) ^ 2 =
            ((sizeInches10 (estimatePpi b sf) w : ℚ) - 1 / 2) ^ 2 *
              (64 * (estimatePpi b sf : ℚ) ^ 2) := by ring
        rw [← expand]
        exact key
  · intro b2 sf2
    unfold estimateSizeInches
    rw [if_neg]
    simp

/-- Witness for `size_inches_estimate`: a built-in retina display 2560 px
wide gets ppi 220 and size 13.7 inches; a zero-width display and an
unmatched display get size 0. -/
theorem size_inches_estimate_witness :
    (estimateSizeInches true 2 2560).1 = 137 / 10 ∧
    (estimateSizeInches true 2 2560).2 = 220 ∧
    estimateSizeInches true 2 0 = (0, 0) ∧
    displaySizeField none = 0 := by
  have h := size_inches_estimate true 2 2560 (by norm_num)
  have hppi : estimatePpi true 2 = 220 := by norm_num [estimatePpi]
  have hs : Nat.sqrt (8900 * 2560 ^ 2) = 241509 :=
    (Nat.eq_sqrt.mpr (by norm_num)).symm
  have h137 : sizeInches10 220 2560 = 137 := by
    have h1 : sizeInches10 220 2560 = (241509 + 4 * 220) / (8 * 220) := by
      rw [sizeInches10_def, hs]
    rw [h1]
  refine ⟨?_, ?_, h.2.2.2.1 true 2, h.2.2.2.2⟩
  · rw [estimateSizeInches_pos true 2 2560 (by norm_num), hppi, h137]
    norm_num
  · rw [h.2.1, hppi]

end WinCtrl
